import Mathlib

/-!
# Shallow embedding of `src/trust_fund_flask.py`

A donation-ledger web application: donors submit contributions, administrators
record distributions, and the views aggregate totals and a per-category
breakdown.  The embedding models:

* the two persisted record shapes (`Donor`, `Distribution`);
* the in-store state as two lists (`Store`);
* the `POST /donate` and `POST /distribute` handlers as pure functions from a
  submitted form and a store to a response together with the successor store;
* the aggregations performed by `GET /` (`index`) and `GET /api/stats`
  (`get_stats`).

Monetary amounts are embedded as exact rationals (`ℚ`): the source stores them
in a `Float` column, but every property of interest is about the exact
arithmetic of sums and comparisons, which is how the accompanying description
of the program treats amounts ("positive decimal currency value", sums that
hold "exactly").  Timestamps (`date` columns) are not modelled: they only
affect the display order of the record lists on the rendered pages, never a
total, a balance, a guard decision, or whether a write happens.

Python truthiness drives the required-field validation in both handlers
(`all([...])`): `None` and the empty string are falsy, every other string is
truthy, and the float `0.0` is falsy.  Form fields absent from the request are
`None` (`form.get(field, default)`), so they are embedded as `Option String`;
the `amount` field is embedded by `AmountField`, separating the three
behaviours of `float(get_form_data(form, "amount", 0))`: field absent (the
default `0` is used), field present and numeric, field present but not parsing
as a number (`float` raises, caught by the generic `except` of the handler).
-/

/-- A `Donor` row (the `Donor` model, `src/trust_fund_flask.py` lines 20-30).
`id` and `date` are store-assigned metadata with no effect on any computation
modelled here and are omitted. -/
structure Donor where
  name : String
  email : String
  amount : ℚ
  category : String
  payment_method : String
  payment_status : String
  message : String
  deriving Repr, DecidableEq

/-- A `Distribution` row (the `Distribution` model, lines 32-41). -/
structure Distribution where
  beneficiary_name : String
  amount : ℚ
  category : String
  purpose : String
  status : String
  payment_mode : String
  deriving Repr, DecidableEq

/-- The persistent state: the two independent record collections. -/
structure Store where
  donors : List Donor
  distributions : List Distribution
  deriving Repr, DecidableEq

/-- The store of the freshly created database: both tables empty. -/
def emptyStore : Store := ⟨[], []⟩

/-- Python truthiness of an optional string form value: `None` (absent field)
and `""` are falsy, any other string is truthy. -/
def truthyStr : Option String → Bool
  | none => false
  | some s => !(s = "")

/-- The `amount` form field as the handlers see it through
`float(get_form_data(form_data, "amount", 0))`. -/
inductive AmountField where
  /-- The field is absent: `get_form_data` yields the default `0`,
  and `float(0)` is `0.0`. -/
  | missing : AmountField
  /-- The field is present and parses as the number `q`. -/
  | numeric (q : ℚ) : AmountField
  /-- The field is present but `float` raises `ValueError`
  (e.g. the empty string or a non-numeric string). -/
  | nonNumeric : AmountField
  deriving Repr, DecidableEq

/-- Result of `float(get_form_data(form_data, "amount", 0))`:
`none` means the conversion raised. -/
def AmountField.parse : AmountField → Option ℚ
  | .missing => some 0
  | .numeric q => some q
  | .nonNumeric => none

/-- The fields of a `POST /donate` submission (absent fields are `none`). -/
structure DonateForm where
  name : Option String
  email : Option String
  amount : AmountField
  category : Option String
  payment_method : Option String
  message : Option String
  deriving Repr, DecidableEq

/-- The fields of a `POST /distribute` submission. -/
structure DistributeForm where
  beneficiary_name : Option String
  amount : AmountField
  category : Option String
  purpose : Option String
  payment_mode : Option String
  deriving Repr, DecidableEq

/-- The total `sum(d.amount for d in donations)` (lines 56, 130, 167). -/
def totalDonorAmount (ds : List Donor) : ℚ := (ds.map Donor.amount).sum

/-- The total `sum(d.amount for d in distributions)` (lines 57, 131, 168). -/
def totalDistributionAmount (ts : List Distribution) : ℚ :=
  (ts.map Distribution.amount).sum

/-- The query `Donor.query.filter_by(payment_status="completed").all()`
(lines 128, 164). -/
def completedDonors (ds : List Donor) : List Donor :=
  ds.filter (fun d => d.payment_status = "completed")

/-- The query `Distribution.query.filter_by(status="completed").all()`
(lines 129, 165). -/
def completedDistributions (ts : List Distribution) : List Distribution :=
  ts.filter (fun t => t.status = "completed")

/-- The completed-only balance computed inside `POST /distribute`
(lines 128-132): `current_balance = total_donations - total_distributions`
over completed-only records. -/
def currentBalance (s : Store) : ℚ :=
  totalDonorAmount (completedDonors s.donors)
    - totalDistributionAmount (completedDistributions s.distributions)

/-- User-visible outcome of a `POST /donate` request. -/
inductive DonateResponse where
  /-- The response `flash("Please fill in all required fields", "error")` and
  redirect back to the form (lines 98-100). -/
  | missingFields : DonateResponse
  /-- The generic `except` handler: `flash("Error processing donation: ...")`
  (lines 114-116). -/
  | error : DonateResponse
  /-- Donation persisted, payment-instruction flash, redirect to `/`
  (lines 102-113). -/
  | success : DonateResponse
  deriving Repr, DecidableEq

/-- User-visible outcome of a `POST /distribute` request. -/
inductive DistributeResponse where
  /-- The response `flash("Distribution amount (...) exceeds available balance (...)")`
  carrying the proposed amount and the current balance (lines 135-137). -/
  | balanceExceeded (amount balance : ℚ) : DistributeResponse
  /-- The response `flash("Please fill in all required fields", "error")`
  (lines 148-150). -/
  | missingFields : DistributeResponse
  /-- The generic `except` handler (lines 156-158). -/
  | error : DistributeResponse
  /-- Distribution persisted, success flash, redirect to `/` (lines 152-155). -/
  | success : DistributeResponse
  deriving Repr, DecidableEq

/-- The `POST /donate` handler (lines 86-116).  Mirrors the source order:
build the `Donor` (parsing the amount; a parse failure raises into the generic
`except`), then check `all([donor.name, donor.email, donor.amount,
donor.category])` by Python truthiness, then persist. -/
def donatePost (form : DonateForm) (s : Store) : DonateResponse × Store :=
  match form.amount.parse with
  | none => (.error, s)
  | some amt =>
    let donor : Donor :=
      { name := form.name.getD ""
        email := form.email.getD ""
        amount := amt
        category := form.category.getD ""
        payment_method := form.payment_method.getD "upi"
        payment_status := "pending"
        message := form.message.getD "" }
    if truthyStr form.name && truthyStr form.email && !(amt = 0)
        && truthyStr form.category then
      (.success, { s with donors := s.donors ++ [donor] })
    else
      (.missingFields, s)

/-- The `POST /distribute` handler (lines 122-158).  Mirrors the source order:
parse the amount (failure raises into the generic `except`), compute the
completed-only balance, apply the strictly-greater-than guard, then build the
`Distribution` with `status="completed"`, check `all([...])` by Python
truthiness, and persist. -/
def distributePost (form : DistributeForm) (s : Store) :
    DistributeResponse × Store :=
  match form.amount.parse with
  | none => (.error, s)
  | some amt =>
    let bal := currentBalance s
    if amt > bal then
      (.balanceExceeded amt bal, s)
    else
      let dist : Distribution :=
        { beneficiary_name := form.beneficiary_name.getD ""
          amount := amt
          category := form.category.getD ""
          purpose := form.purpose.getD ""
          payment_mode := form.payment_mode.getD "cash"
          status := "completed" }
      if truthyStr form.beneficiary_name && !(amt = 0)
          && truthyStr form.category && truthyStr form.purpose then
        (.success, { s with distributions := s.distributions ++ [dist] })
      else
        (.missingFields, s)

/-- One per-category bucket of the home view `categories` dict:
`{"donations": ..., "distributions": ...}` (lines 60-66). -/
structure CatBucket where
  donations : ℚ
  distributions : ℚ
  deriving Repr, DecidableEq

/-- The `categories` dict of the home view with its five fixed keys (lines 60-66). -/
structure Categories where
  education : CatBucket
  healthcare : CatBucket
  food : CatBucket
  shelter : CatBucket
  emergency : CatBucket
  deriving Repr, DecidableEq

/-- The initial `categories` literal: every bucket `0.0`/`0.0`. -/
def initCategories : Categories :=
  { education := ⟨0, 0⟩, healthcare := ⟨0, 0⟩, food := ⟨0, 0⟩
    shelter := ⟨0, 0⟩, emergency := ⟨0, 0⟩ }

/-- The five fixed category keys, in dict order. -/
def categoryKeys : List String :=
  ["education", "healthcare", "food", "shelter", "emergency"]

/-- Dict lookup `categories[c]`: `some` exactly on the five fixed keys. -/
def Categories.get (cats : Categories) (c : String) : Option CatBucket :=
  if c = "education" then some cats.education
  else if c = "healthcare" then some cats.healthcare
  else if c = "food" then some cats.food
  else if c = "shelter" then some cats.shelter
  else if c = "emergency" then some cats.emergency
  else none

/-- One step of the donation loop (lines 68-70): if `donation.category in
categories`, add its amount to the `donations` bucket of that category. -/
def addDonationCat (cats : Categories) (d : Donor) : Categories :=
  if d.category = "education" then
    { cats with education :=
        { cats.education with donations := cats.education.donations + d.amount } }
  else if d.category = "healthcare" then
    { cats with healthcare :=
        { cats.healthcare with donations := cats.healthcare.donations + d.amount } }
  else if d.category = "food" then
    { cats with food :=
        { cats.food with donations := cats.food.donations + d.amount } }
  else if d.category = "shelter" then
    { cats with shelter :=
        { cats.shelter with donations := cats.shelter.donations + d.amount } }
  else if d.category = "emergency" then
    { cats with emergency :=
        { cats.emergency with donations := cats.emergency.donations + d.amount } }
  else cats

/-- One step of the distribution loop (lines 72-74). -/
def addDistributionCat (cats : Categories) (t : Distribution) : Categories :=
  if t.category = "education" then
    { cats with education :=
        { cats.education with distributions := cats.education.distributions + t.amount } }
  else if t.category = "healthcare" then
    { cats with healthcare :=
        { cats.healthcare with distributions := cats.healthcare.distributions + t.amount } }
  else if t.category = "food" then
    { cats with food :=
        { cats.food with distributions := cats.food.distributions + t.amount } }
  else if t.category = "shelter" then
    { cats with shelter :=
        { cats.shelter with distributions := cats.shelter.distributions + t.amount } }
  else if t.category = "emergency" then
    { cats with emergency :=
        { cats.emergency with distributions := cats.emergency.distributions + t.amount } }
  else cats

/-- The category accumulation of `GET /` (lines 60-74): donations folded in
first, then distributions, following the two loops of the source. -/
def indexCategories (s : Store) : Categories :=
  s.distributions.foldl addDistributionCat
    (s.donors.foldl addDonationCat initCategories)

/-- What `GET /` hands to the template (lines 51-82): totals over ALL records
regardless of `payment_status`/`status`, their difference as balance, and the
category breakdown.  (The raw record lists are also passed to the template;
they are the record collections of the store and carry no computation.) -/
structure IndexSummary where
  total_donations : ℚ
  total_distributions : ℚ
  balance : ℚ
  categories : Categories
  deriving Repr, DecidableEq

/-- The aggregation of `GET /` (lines 51-82). -/
def indexSummary (s : Store) : IndexSummary :=
  { total_donations := totalDonorAmount s.donors
    total_distributions := totalDistributionAmount s.distributions
    balance := totalDonorAmount s.donors - totalDistributionAmount s.distributions
    categories := indexCategories s }

/-- The `GET /` handler as a store transformer: it only reads, so the store
component of the result is the store it was given. -/
def indexHandler (s : Store) : IndexSummary × Store := (indexSummary s, s)

/-- The JSON body of `GET /api/stats` (lines 162-174): totals over
completed-only records. -/
structure StatsJson where
  total_donations : ℚ
  total_distributions : ℚ
  balance : ℚ
  deriving Repr, DecidableEq

/-- The aggregation of `GET /api/stats` (lines 162-174). -/
def getStats (s : Store) : StatsJson :=
  { total_donations := totalDonorAmount (completedDonors s.donors)
    total_distributions :=
      totalDistributionAmount (completedDistributions s.distributions)
    balance := totalDonorAmount (completedDonors s.donors)
      - totalDistributionAmount (completedDistributions s.distributions) }

/-- States reachable from the empty store via the mutating operations
(`POST /donate` and `POST /distribute`); the read-only views do not change
the store. -/
inductive Reachable : Store → Prop where
  | empty : Reachable emptyStore
  | donate (form : DonateForm) (s : Store) :
      Reachable s → Reachable (donatePost form s).2
  | distribute (form : DistributeForm) (s : Store) :
      Reachable s → Reachable (distributePost form s).2

/-! ## Theorems -/

/-- C1: with a numeric proposed amount `a`, the `POST /distribute` balance
guard rejects (responds `balanceExceeded`) iff `a` strictly exceeds the
completed-only balance `sum(D.amount) - sum(T.amount)`; in particular a
proposal equal to the balance is never rejected by the guard. -/
theorem distribute_guard_strict_iff (form : DistributeForm) (s : Store)
    (a : ℚ) (h : form.amount = .numeric a) :
    ((∃ b, (distributePost form s).1 = DistributeResponse.balanceExceeded a b) ↔
      a > totalDonorAmount (completedDonors s.donors)
        - totalDistributionAmount (completedDistributions s.distributions))
    ∧ (a = totalDonorAmount (completedDonors s.donors)
        - totalDistributionAmount (completedDistributions s.distributions) →
      ∀ x y, (distributePost form s).1 ≠ DistributeResponse.balanceExceeded x y) := by
  have hbal : currentBalance s = totalDonorAmount (completedDonors s.donors)
      - totalDistributionAmount (completedDistributions s.distributions) := rfl
  rw [← hbal]
  constructor
  · by_cases hgt : a > currentBalance s
    · simp [distributePost, h, AmountField.parse, hgt]
    · simp only [distributePost, h, AmountField.parse, if_neg hgt]
      constructor
      · rintro ⟨b, hb⟩
        split at hb <;> simp_all
      · intro hc; exact absurd hc hgt
  · intro heq x y hcontra
    have hng : ¬ a > currentBalance s := by rw [heq]; exact lt_irrefl _
    simp only [distributePost, h, AmountField.parse, if_neg hng] at hcontra
    split at hcontra <;> simp_all

/-- Witness for C1 at a concrete input: empty store (balance `0`),
proposed amount `5`. -/
theorem distribute_guard_strict_iff_witness :
    ((∃ b, (distributePost
        ⟨some "ben", AmountField.numeric 5, some "food", some "aid", none⟩
        emptyStore).1 = DistributeResponse.balanceExceeded 5 b) ↔
      (5 : ℚ) > totalDonorAmount (completedDonors emptyStore.donors)
        - totalDistributionAmount (completedDistributions emptyStore.distributions))
    ∧ ((5 : ℚ) = totalDonorAmount (completedDonors emptyStore.donors)
        - totalDistributionAmount (completedDistributions emptyStore.distributions) →
      ∀ x y, (distributePost
        ⟨some "ben", AmountField.numeric 5, some "food", some "aid", none⟩
        emptyStore).1 ≠ DistributeResponse.balanceExceeded x y) :=
  distribute_guard_strict_iff
    ⟨some "ben", AmountField.numeric 5, some "food", some "aid", none⟩
    emptyStore 5 rfl

/-- C6: when the guard rejects (numeric proposed amount strictly above the
completed-only balance) `POST /distribute` performs no write: the response is
the balance-exceeded message and the store is returned exactly as it was. -/
theorem distribute_reject_no_write (form : DistributeForm) (s : Store)
    (a : ℚ) (h : form.amount = .numeric a) (hgt : a > currentBalance s) :
    distributePost form s = (DistributeResponse.balanceExceeded a (currentBalance s), s) := by
  simp [distributePost, h, AmountField.parse, hgt]

/-- Witness for C6: a store with one completed donation of `100`, a proposal
of `100.01` (i.e. `10001/100`); the store is unchanged. -/
theorem distribute_reject_no_write_witness :
    distributePost
      ⟨some "ben", AmountField.numeric (10001/100), some "food", some "aid", none⟩
      ⟨[⟨"alice", "a@x", 100, "food", "upi", "completed", ""⟩], []⟩ =
    (DistributeResponse.balanceExceeded (10001/100)
      (currentBalance ⟨[⟨"alice", "a@x", 100, "food", "upi", "completed", ""⟩], []⟩),
      ⟨[⟨"alice", "a@x", 100, "food", "upi", "completed", ""⟩], []⟩) :=
  distribute_reject_no_write _ _ (10001/100) rfl (by
    norm_num [currentBalance, completedDonors, completedDistributions,
      totalDonorAmount, totalDistributionAmount, List.filter])

/-- C9: in `POST /donate` a submitted amount equal to `0` — including an
absent amount field, which defaults to `0` — fails the truthiness check
`all([...])` exactly like a missing required field: the response is the
missing-fields error and nothing is written, whatever the other fields hold. -/
theorem donate_zero_amount_missing_fields (form : DonateForm) (s : Store)
    (h : form.amount = .missing ∨ form.amount = .numeric 0) :
    donatePost form s = (DonateResponse.missingFields, s) := by
  rcases h with h | h <;> simp [donatePost, h, AmountField.parse]

/-- Witness for C9: a fully-filled form whose amount field is absent, against
a concrete nonempty store. -/
theorem donate_zero_amount_missing_fields_witness :
    donatePost ⟨some "alice", some "a@x", AmountField.missing, some "food", none, none⟩
      ⟨[], [⟨"ben", 5, "food", "aid", "completed", "cash"⟩]⟩ =
    (DonateResponse.missingFields,
      ⟨[], [⟨"ben", 5, "food", "aid", "completed", "cash"⟩]⟩) :=
  donate_zero_amount_missing_fields _ _ (Or.inl rfl)

/-- C10: `POST /distribute` evaluates the balance guard before the
required-field validation: a request whose numeric amount strictly exceeds the
completed-only balance and which also omits a required field gets the
balance-exceeded response, not the missing-fields response, and nothing is
persisted. -/
theorem distribute_guard_before_validation (form : DistributeForm) (s : Store)
    (a : ℚ) (h : form.amount = .numeric a) (hgt : a > currentBalance s)
    (_hmiss : truthyStr form.beneficiary_name = false
      ∨ truthyStr form.category = false ∨ truthyStr form.purpose = false) :
    (distributePost form s).1 = DistributeResponse.balanceExceeded a (currentBalance s)
    ∧ (distributePost form s).1 ≠ DistributeResponse.missingFields
    ∧ (distributePost form s).2 = s := by
  simp [distributePost, h, AmountField.parse, hgt]

/-- Witness for C10: empty store (balance `0`), amount `7`, beneficiary
field absent. -/
theorem distribute_guard_before_validation_witness :
    (distributePost ⟨none, AmountField.numeric 7, some "food", some "aid", none⟩
        emptyStore).1 = DistributeResponse.balanceExceeded 7 (currentBalance emptyStore)
    ∧ (distributePost ⟨none, AmountField.numeric 7, some "food", some "aid", none⟩
        emptyStore).1 ≠ DistributeResponse.missingFields
    ∧ (distributePost ⟨none, AmountField.numeric 7, some "food", some "aid", none⟩
        emptyStore).2 = emptyStore :=
  distribute_guard_before_validation _ emptyStore 7 rfl
    (by norm_num [currentBalance, completedDonors, completedDistributions,
      totalDonorAmount, totalDistributionAmount, emptyStore]) (Or.inl rfl)

/-- C2: the balance used by the guard equals
`sum(D.amount) - sum(T.amount)` over the completed-only records exactly, the
stats endpoint computes the same value, and the value is invariant under any
permutation of the stored donation and distribution records. -/
theorem balance_exact_perm_invariant (s s' : Store)
    (hd : s.donors.Perm s'.donors)
    (ht : s.distributions.Perm s'.distributions) :
    currentBalance s = totalDonorAmount (completedDonors s.donors)
      - totalDistributionAmount (completedDistributions s.distributions)
    ∧ (getStats s).balance = currentBalance s
    ∧ currentBalance s = currentBalance s'
    ∧ (getStats s).balance = (getStats s').balance := by
  have key : currentBalance s = currentBalance s' := by
    unfold currentBalance totalDonorAmount totalDistributionAmount
      completedDonors completedDistributions
    rw [((hd.filter _).map _).sum_eq, ((ht.filter _).map _).sum_eq]
  exact ⟨rfl, rfl, key, key⟩

/-- Witness for C2: a two-donation store and the same store with the
donations transposed. -/
theorem balance_exact_perm_invariant_witness :
    currentBalance ⟨[⟨"a", "a@x", 100, "food", "upi", "completed", ""⟩,
        ⟨"b", "b@x", 50, "shelter", "card", "completed", ""⟩], []⟩
      = totalDonorAmount (completedDonors
          [⟨"a", "a@x", 100, "food", "upi", "completed", ""⟩,
            ⟨"b", "b@x", 50, "shelter", "card", "completed", ""⟩])
        - totalDistributionAmount (completedDistributions [])
    ∧ (getStats ⟨[⟨"a", "a@x", 100, "food", "upi", "completed", ""⟩,
        ⟨"b", "b@x", 50, "shelter", "card", "completed", ""⟩], []⟩).balance
      = currentBalance ⟨[⟨"a", "a@x", 100, "food", "upi", "completed", ""⟩,
        ⟨"b", "b@x", 50, "shelter", "card", "completed", ""⟩], []⟩
    ∧ currentBalance ⟨[⟨"a", "a@x", 100, "food", "upi", "completed", ""⟩,
        ⟨"b", "b@x", 50, "shelter", "card", "completed", ""⟩], []⟩
      = currentBalance ⟨[⟨"b", "b@x", 50, "shelter", "card", "completed", ""⟩,
        ⟨"a", "a@x", 100, "food", "upi", "completed", ""⟩], []⟩
    ∧ (getStats ⟨[⟨"a", "a@x", 100, "food", "upi", "completed", ""⟩,
        ⟨"b", "b@x", 50, "shelter", "card", "completed", ""⟩], []⟩).balance
      = (getStats ⟨[⟨"b", "b@x", 50, "shelter", "card", "completed", ""⟩,
        ⟨"a", "a@x", 100, "food", "upi", "completed", ""⟩], []⟩).balance :=
  balance_exact_perm_invariant _ _ (List.Perm.swap _ _ _) (List.Perm.refl _)

/-- C4: `GET /` totals range over ALL records while `GET /api/stats` totals
range over completed-only records; when every stored record is completed the
two views agree on all three figures, and there is a store on which they
differ. -/
theorem index_vs_stats (s : Store)
    (hd : ∀ d ∈ s.donors, d.payment_status = "completed")
    (ht : ∀ t ∈ s.distributions, t.status = "completed") :
    (indexSummary s).total_donations = totalDonorAmount s.donors
    ∧ (getStats s).total_donations = totalDonorAmount (completedDonors s.donors)
    ∧ (indexSummary s).total_donations = (getStats s).total_donations
    ∧ (indexSummary s).total_distributions = (getStats s).total_distributions
    ∧ (indexSummary s).balance = (getStats s).balance
    ∧ ∃ s₀ : Store,
        (indexSummary s₀).total_donations ≠ (getStats s₀).total_donations := by
  have hcd : completedDonors s.donors = s.donors :=
    List.filter_eq_self.mpr (fun d hdm => decide_eq_true (hd d hdm))
  have hct : completedDistributions s.distributions = s.distributions :=
    List.filter_eq_self.mpr (fun t htm => decide_eq_true (ht t htm))
  refine ⟨rfl, rfl, ?_, ?_, ?_,
    ⟨⟨[⟨"a", "a@x", 1, "food", "upi", "pending", ""⟩], []⟩, ?_⟩⟩
  · simp [indexSummary, getStats, hcd]
  · simp [indexSummary, getStats, hct]
  · simp [indexSummary, getStats, hcd, hct]
  · simp [indexSummary, getStats, completedDonors, totalDonorAmount, List.filter]

/-- Witness for C4: an all-completed store with one donation and one
distribution. -/
theorem index_vs_stats_witness :
    (indexSummary ⟨[⟨"a", "a@x", 9, "food", "upi", "completed", ""⟩],
        [⟨"b", 4, "food", "aid", "completed", "cash"⟩]⟩).total_donations
      = totalDonorAmount [⟨"a", "a@x", 9, "food", "upi", "completed", ""⟩]
    ∧ (getStats ⟨[⟨"a", "a@x", 9, "food", "upi", "completed", ""⟩],
        [⟨"b", 4, "food", "aid", "completed", "cash"⟩]⟩).total_donations
      = totalDonorAmount (completedDonors [⟨"a", "a@x", 9, "food", "upi", "completed", ""⟩])
    ∧ (indexSummary ⟨[⟨"a", "a@x", 9, "food", "upi", "completed", ""⟩],
        [⟨"b", 4, "food", "aid", "completed", "cash"⟩]⟩).total_donations
      = (getStats ⟨[⟨"a", "a@x", 9, "food", "upi", "completed", ""⟩],
        [⟨"b", 4, "food", "aid", "completed", "cash"⟩]⟩).total_donations
    ∧ (indexSummary ⟨[⟨"a", "a@x", 9, "food", "upi", "completed", ""⟩],
        [⟨"b", 4, "food", "aid", "completed", "cash"⟩]⟩).total_distributions
      = (getStats ⟨[⟨"a", "a@x", 9, "food", "upi", "completed", ""⟩],
        [⟨"b", 4, "food", "aid", "completed", "cash"⟩]⟩).total_distributions
    ∧ (indexSummary ⟨[⟨"a", "a@x", 9, "food", "upi", "completed", ""⟩],
        [⟨"b", 4, "food", "aid", "completed", "cash"⟩]⟩).balance
      = (getStats ⟨[⟨"a", "a@x", 9, "food", "upi", "completed", ""⟩],
        [⟨"b", 4, "food", "aid", "completed", "cash"⟩]⟩).balance
    ∧ ∃ s₀ : Store,
        (indexSummary s₀).total_donations ≠ (getStats s₀).total_donations :=
  index_vs_stats _ (by simp) (by simp)

/-- C8: the `GET /` aggregation is pure and deterministic: it returns the
store unchanged, running it a second time on the resulting store produces the
identical summary, and the summary depends only on the snapshot of the two
record collections. -/
theorem index_pure_deterministic (s s' : Store)
    (h1 : s.donors = s'.donors) (h2 : s.distributions = s'.distributions) :
    (indexHandler s).2 = s
    ∧ (indexHandler ((indexHandler s).2)).1 = (indexHandler s).1
    ∧ (indexHandler s).1 = (indexHandler s').1 := by
  obtain ⟨d, t⟩ := s
  obtain ⟨d', t'⟩ := s'
  cases h1
  cases h2
  exact ⟨rfl, rfl, rfl⟩

/-- Witness for C8 at a concrete one-record store. -/
theorem index_pure_deterministic_witness :
    (indexHandler ⟨[⟨"a", "a@x", 3, "food", "upi", "pending", "hi"⟩], []⟩).2
      = ⟨[⟨"a", "a@x", 3, "food", "upi", "pending", "hi"⟩], []⟩
    ∧ (indexHandler ((indexHandler
        ⟨[⟨"a", "a@x", 3, "food", "upi", "pending", "hi"⟩], []⟩).2)).1
      = (indexHandler ⟨[⟨"a", "a@x", 3, "food", "upi", "pending", "hi"⟩], []⟩).1
    ∧ (indexHandler ⟨[⟨"a", "a@x", 3, "food", "upi", "pending", "hi"⟩], []⟩).1
      = (indexHandler ⟨[⟨"a", "a@x", 3, "food", "upi", "pending", "hi"⟩], []⟩).1 :=
  index_pure_deterministic _ _ rfl rfl

/-- C7: a submission with a missing/empty required field or a non-numeric
amount never succeeds and never writes: `POST /donate` (required: name,
email, amount, category) and `POST /distribute` (required: beneficiary_name,
amount, category, purpose) both respond with a user-visible error and leave
the store exactly as it was. -/
theorem invalid_submission_no_write (fd : DonateForm) (ft : DistributeForm)
    (s : Store)
    (hfd : truthyStr fd.name = false ∨ truthyStr fd.email = false
      ∨ truthyStr fd.category = false
      ∨ fd.amount = .missing ∨ fd.amount = .nonNumeric)
    (hft : truthyStr ft.beneficiary_name = false
      ∨ truthyStr ft.category = false ∨ truthyStr ft.purpose = false
      ∨ ft.amount = .missing ∨ ft.amount = .nonNumeric) :
    ((donatePost fd s).1 ≠ DonateResponse.success ∧ (donatePost fd s).2 = s)
    ∧ ((distributePost ft s).1 ≠ DistributeResponse.success
        ∧ (distributePost ft s).2 = s) := by
  constructor
  · rcases hA : fd.amount with _ | q | _
    · simp [donatePost, hA, AmountField.parse]
    · rcases hfd with h | h | h | h | h
      · simp [donatePost, hA, AmountField.parse, h]
      · simp [donatePost, hA, AmountField.parse, h]
      · simp [donatePost, hA, AmountField.parse, h]
      · rw [hA] at h; exact absurd h (by simp)
      · rw [hA] at h; exact absurd h (by simp)
    · simp [donatePost, hA, AmountField.parse]
  · rcases hA : ft.amount with _ | q | _
    · by_cases hgt : (0 : ℚ) > currentBalance s <;>
        simp [distributePost, hA, AmountField.parse, hgt]
    · rcases hft with h | h | h | h | h
      · by_cases hgt : q > currentBalance s <;>
          simp [distributePost, hA, AmountField.parse, hgt, h]
      · by_cases hgt : q > currentBalance s <;>
          simp [distributePost, hA, AmountField.parse, hgt, h]
      · by_cases hgt : q > currentBalance s <;>
          simp [distributePost, hA, AmountField.parse, hgt, h]
      · rw [hA] at h; exact absurd h (by simp)
      · rw [hA] at h; exact absurd h (by simp)
    · simp [distributePost, hA, AmountField.parse]

/-- Witness for C7: a donate form with an empty email and a distribute form
with a non-numeric amount, against a concrete one-record store. -/
theorem invalid_submission_no_write_witness :
    ((donatePost ⟨some "alice", some "", AmountField.numeric 10, some "food", none, none⟩
        ⟨[⟨"z", "z@x", 2, "food", "upi", "pending", ""⟩], []⟩).1
          ≠ DonateResponse.success
      ∧ (donatePost ⟨some "alice", some "", AmountField.numeric 10, some "food", none, none⟩
        ⟨[⟨"z", "z@x", 2, "food", "upi", "pending", ""⟩], []⟩).2
          = ⟨[⟨"z", "z@x", 2, "food", "upi", "pending", ""⟩], []⟩)
    ∧ ((distributePost ⟨some "ben", AmountField.nonNumeric, some "food", some "aid", none⟩
        ⟨[⟨"z", "z@x", 2, "food", "upi", "pending", ""⟩], []⟩).1
          ≠ DistributeResponse.success
      ∧ (distributePost ⟨some "ben", AmountField.nonNumeric, some "food", some "aid", none⟩
        ⟨[⟨"z", "z@x", 2, "food", "upi", "pending", ""⟩], []⟩).2
          = ⟨[⟨"z", "z@x", 2, "food", "upi", "pending", ""⟩], []⟩) :=
  invalid_submission_no_write _ _ _ (Or.inr (Or.inl rfl))
    (Or.inr (Or.inr (Or.inr (Or.inr rfl))))

/-- Sum of the amounts of the donations tagged with category `c`. -/
def catDonSum (c : String) (ds : List Donor) : ℚ :=
  totalDonorAmount (ds.filter (fun d => d.category = c))

/-- Sum of the amounts of the distributions tagged with category `c`. -/
def catDistSum (c : String) (ts : List Distribution) : ℚ :=
  totalDistributionAmount (ts.filter (fun t => t.category = c))

lemma catDonSum_cons (c : String) (d : Donor) (ds : List Donor) :
    catDonSum c (d :: ds) =
      (if d.category = c then d.amount else 0) + catDonSum c ds := by
  by_cases h : d.category = c <;>
    simp [catDonSum, totalDonorAmount, List.filter_cons, h]

lemma catDistSum_cons (c : String) (t : Distribution) (ts : List Distribution) :
    catDistSum c (t :: ts) =
      (if t.category = c then t.amount else 0) + catDistSum c ts := by
  by_cases h : t.category = c <;>
    simp [catDistSum, totalDistributionAmount, List.filter_cons, h]

lemma foldl_addDonationCat (ds : List Donor) (cats : Categories) :
    ds.foldl addDonationCat cats =
      { education := ⟨cats.education.donations + catDonSum "education" ds,
          cats.education.distributions⟩
        healthcare := ⟨cats.healthcare.donations + catDonSum "healthcare" ds,
          cats.healthcare.distributions⟩
        food := ⟨cats.food.donations + catDonSum "food" ds,
          cats.food.distributions⟩
        shelter := ⟨cats.shelter.donations + catDonSum "shelter" ds,
          cats.shelter.distributions⟩
        emergency := ⟨cats.emergency.donations + catDonSum "emergency" ds,
          cats.emergency.distributions⟩ } := by
  induction ds generalizing cats with
  | nil => simp [catDonSum, totalDonorAmount]
  | cons d ds ih =>
    rw [List.foldl_cons, ih]
    simp only [catDonSum_cons]
    unfold addDonationCat
    split_ifs with h1 h2 h3 h4 h5 <;> simp_all [add_assoc]

lemma foldl_addDistributionCat (ts : List Distribution) (cats : Categories) :
    ts.foldl addDistributionCat cats =
      { education := ⟨cats.education.donations,
          cats.education.distributions + catDistSum "education" ts⟩
        healthcare := ⟨cats.healthcare.donations,
          cats.healthcare.distributions + catDistSum "healthcare" ts⟩
        food := ⟨cats.food.donations,
          cats.food.distributions + catDistSum "food" ts⟩
        shelter := ⟨cats.shelter.donations,
          cats.shelter.distributions + catDistSum "shelter" ts⟩
        emergency := ⟨cats.emergency.donations,
          cats.emergency.distributions + catDistSum "emergency" ts⟩ } := by
  induction ts generalizing cats with
  | nil => simp [catDistSum, totalDistributionAmount]
  | cons t ts ih =>
    rw [List.foldl_cons, ih]
    simp only [catDistSum_cons]
    unfold addDistributionCat
    split_ifs with h1 h2 h3 h4 h5 <;> simp_all [add_assoc]

/-- Closed form of the `GET /` category accumulation: each of the five
buckets holds exactly the per-category filtered sums. -/
lemma indexCategories_eq (s : Store) :
    indexCategories s =
      { education := ⟨catDonSum "education" s.donors,
          catDistSum "education" s.distributions⟩
        healthcare := ⟨catDonSum "healthcare" s.donors,
          catDistSum "healthcare" s.distributions⟩
        food := ⟨catDonSum "food" s.donors, catDistSum "food" s.distributions⟩
        shelter := ⟨catDonSum "shelter" s.donors,
          catDistSum "shelter" s.distributions⟩
        emergency := ⟨catDonSum "emergency" s.donors,
          catDistSum "emergency" s.distributions⟩ } := by
  unfold indexCategories
  rw [foldl_addDonationCat, foldl_addDistributionCat]
  simp [initCategories]

/-- C5: for each category `c` among the five fixed keys, the home view bucket
`categories[c]` holds exactly the sum of amounts of the donations
(resp. distributions) whose category equals `c`; records with an
unrecognized category are thereby excluded from every bucket, while the
grand totals (and hence the balance) sum over ALL records. -/
theorem categories_breakdown (s : Store) (c : String) (hc : c ∈ categoryKeys) :
    (∃ b : CatBucket, (indexCategories s).get c = some b
      ∧ b.donations
          = totalDonorAmount (s.donors.filter (fun d => d.category = c))
      ∧ b.distributions
          = totalDistributionAmount
              (s.distributions.filter (fun t => t.category = c)))
    ∧ (indexSummary s).total_donations = totalDonorAmount s.donors
    ∧ (indexSummary s).total_distributions
        = totalDistributionAmount s.distributions
    ∧ (indexSummary s).balance
        = totalDonorAmount s.donors - totalDistributionAmount s.distributions := by
  refine ⟨?_, rfl, rfl, rfl⟩
  rw [indexCategories_eq]
  simp only [categoryKeys, List.mem_cons, List.mem_singleton,
    List.not_mem_nil, or_false] at hc
  rcases hc with h | h | h | h | h <;> subst h
  · exact ⟨⟨catDonSum "education" s.donors, catDistSum "education" s.distributions⟩,
      by simp [Categories.get], rfl, rfl⟩
  · exact ⟨⟨catDonSum "healthcare" s.donors, catDistSum "healthcare" s.distributions⟩,
      by simp [Categories.get], rfl, rfl⟩
  · exact ⟨⟨catDonSum "food" s.donors, catDistSum "food" s.distributions⟩,
      by simp [Categories.get], rfl, rfl⟩
  · exact ⟨⟨catDonSum "shelter" s.donors, catDistSum "shelter" s.distributions⟩,
      by simp [Categories.get], rfl, rfl⟩
  · exact ⟨⟨catDonSum "emergency" s.donors, catDistSum "emergency" s.distributions⟩,
      by simp [Categories.get], rfl, rfl⟩

/-- Witness for C5: a store holding a `food` donation of `500` and a donation
of `300` with the unrecognized category `"unknown"`, at `c = "food"`. -/
theorem categories_breakdown_witness :
    (∃ b : CatBucket,
      (indexCategories ⟨[⟨"a", "a@x", 500, "food", "upi", "completed", ""⟩,
          ⟨"b", "b@x", 300, "unknown", "upi", "completed", ""⟩], []⟩).get "food"
        = some b
      ∧ b.donations
          = totalDonorAmount
              ([⟨"a", "a@x", 500, "food", "upi", "completed", ""⟩,
                ⟨"b", "b@x", 300, "unknown", "upi", "completed", ""⟩].filter
                (fun d => d.category = "food"))
      ∧ b.distributions
          = totalDistributionAmount
              (List.filter (fun t => t.category = "food") []))
    ∧ (indexSummary ⟨[⟨"a", "a@x", 500, "food", "upi", "completed", ""⟩,
          ⟨"b", "b@x", 300, "unknown", "upi", "completed", ""⟩], []⟩).total_donations
        = totalDonorAmount [⟨"a", "a@x", 500, "food", "upi", "completed", ""⟩,
            ⟨"b", "b@x", 300, "unknown", "upi", "completed", ""⟩]
    ∧ (indexSummary ⟨[⟨"a", "a@x", 500, "food", "upi", "completed", ""⟩,
          ⟨"b", "b@x", 300, "unknown", "upi", "completed", ""⟩], []⟩).total_distributions
        = totalDistributionAmount []
    ∧ (indexSummary ⟨[⟨"a", "a@x", 500, "food", "upi", "completed", ""⟩,
          ⟨"b", "b@x", 300, "unknown", "upi", "completed", ""⟩], []⟩).balance
        = totalDonorAmount [⟨"a", "a@x", 500, "food", "upi", "completed", ""⟩,
            ⟨"b", "b@x", 300, "unknown", "upi", "completed", ""⟩]
          - totalDistributionAmount [] :=
  categories_breakdown _ "food" (by simp [categoryKeys])

lemma donatePost_store_cases (form : DonateForm) (s : Store) :
    (donatePost form s).2 = s
    ∨ ∃ donor : Donor, donor.payment_status = "pending"
        ∧ (donatePost form s).2 = { s with donors := s.donors ++ [donor] } := by
  rcases hA : form.amount with _ | q | _ <;>
    simp only [donatePost, hA, AmountField.parse]
  · split_ifs with h
    · exact Or.inr ⟨_, rfl, rfl⟩
    · exact Or.inl rfl
  · split_ifs with h
    · exact Or.inr ⟨_, rfl, rfl⟩
    · exact Or.inl rfl
  · exact Or.inl trivial

lemma distributePost_store_cases (form : DistributeForm) (s : Store) :
    (distributePost form s).2 = s
    ∨ ∃ dist : Distribution, dist.status = "completed"
        ∧ (distributePost form s).2
            = { s with distributions := s.distributions ++ [dist] } := by
  rcases hA : form.amount with _ | q | _ <;>
    simp only [distributePost, hA, AmountField.parse]
  · split_ifs with h1 h2
    · exact Or.inl rfl
    · exact Or.inr ⟨_, rfl, rfl⟩
    · exact Or.inl rfl
  · split_ifs with h1 h2
    · exact Or.inl rfl
    · exact Or.inr ⟨_, rfl, rfl⟩
    · exact Or.inl rfl
  · exact Or.inl trivial

/-- C3: in every state reachable from the empty store, every stored donor
still has `payment_status = "pending"` (no code path ever completes a
donation) and every stored distribution has `status = "completed"`; hence
the completed-only donation total used by the guard and reported by
`GET /api/stats` is `0`. -/
theorem reachable_invariant (s : Store) (h : Reachable s) :
    (∀ d ∈ s.donors, d.payment_status = "pending")
    ∧ (∀ t ∈ s.distributions, t.status = "completed")
    ∧ totalDonorAmount (completedDonors s.donors) = 0
    ∧ (getStats s).total_donations = 0 := by
  have main : (∀ d ∈ s.donors, d.payment_status = "pending")
      ∧ (∀ t ∈ s.distributions, t.status = "completed") := by
    induction h with
    | empty => exact ⟨by simp [emptyStore], by simp [emptyStore]⟩
    | donate form s' hs ih =>
      obtain ⟨ihd, iht⟩ := ih
      rcases donatePost_store_cases form s' with he | ⟨donor, hdp, he⟩
      · rw [he]; exact ⟨ihd, iht⟩
      · rw [he]
        refine ⟨?_, iht⟩
        intro d hd
        rcases List.mem_append.mp hd with h' | h'
        · exact ihd d h'
        · rw [List.mem_singleton] at h'; subst h'; exact hdp
    | distribute form s' hs ih =>
      obtain ⟨ihd, iht⟩ := ih
      rcases distributePost_store_cases form s' with he | ⟨dist, hst, he⟩
      · rw [he]; exact ⟨ihd, iht⟩
      · rw [he]
        refine ⟨ihd, ?_⟩
        intro t ht
        rcases List.mem_append.mp ht with h' | h'
        · exact iht t h'
        · rw [List.mem_singleton] at h'; subst h'; exact hst
  obtain ⟨hd, ht⟩ := main
  have hnil : completedDonors s.donors = [] := by
    refine List.filter_eq_nil_iff.mpr ?_
    intro d hdm
    simp [hd d hdm]
  exact ⟨hd, ht, by rw [hnil]; rfl, by simp [getStats, hnil, totalDonorAmount]⟩

/-- Witness for C3: the state obtained from the empty store by one successful
donation submission. -/
theorem reachable_invariant_witness :
    (∀ d ∈ ((donatePost
        ⟨some "a", some "a@x", AmountField.numeric 10, some "food", none, none⟩
        emptyStore).2).donors, d.payment_status = "pending")
    ∧ (∀ t ∈ ((donatePost
        ⟨some "a", some "a@x", AmountField.numeric 10, some "food", none, none⟩
        emptyStore).2).distributions, t.status = "completed")
    ∧ totalDonorAmount (completedDonors ((donatePost
        ⟨some "a", some "a@x", AmountField.numeric 10, some "food", none, none⟩
        emptyStore).2).donors) = 0
    ∧ (getStats ((donatePost
        ⟨some "a", some "a@x", AmountField.numeric 10, some "food", none, none⟩
        emptyStore).2)).total_donations = 0 :=
  reachable_invariant _ (Reachable.donate _ _ Reachable.empty)
